import Mathlib

/-
Formal model of the token-resolution and swap-quote core of `src/main.py`
(PoofLabs/SOL_GPT).  Python functions are embedded as pure Lean functions:
the process-global Jupiter token map becomes an explicit parameter, the
outbound HTTP collaborators (token-list fetch, Jupiter quote endpoint)
become function parameters, and a raised `HTTPException(status, detail)`
becomes `Except.error ⟨status, detail⟩`.  Python `float` amounts are
modelled as exact rationals (ℚ); the concrete inputs used in the theorems
below are all exactly representable as binary floats, so the modelled
arithmetic coincides with the Python arithmetic on them.
-/

/-- Model of FastAPI's `HTTPException(status_code=..., detail=...)`. -/
structure HTTPError where
  status : Nat
  detail : String
  deriving DecidableEq, Repr

/-- One entry of the Jupiter `token.jup.ag/all` feed, restricted to the two
fields `src/main.py` reads (`t['symbol']`, `t['address']`); `none` models a
missing key. -/
structure RawToken where
  symbol : Option String
  address : Option String
  deriving DecidableEq, Repr

/-- Lower-case an ASCII letter, as Python `str.lower` does on the ASCII
range (token symbols in the feed are ASCII). -/
def pyLowerChar (c : Char) : Char :=
  if 'A' ≤ c ∧ c ≤ 'Z' then Char.ofNat (c.toNat + 32) else c

/-- Python `s.lower()` on ASCII strings. -/
def pyLower (s : String) : String := String.mk (s.toList.map pyLowerChar)

/-- Python `s.startswith("So")` (src/main.py line 87). -/
def pyStartsWithSo (s : String) : Bool :=
  match s.toList with
  | 'S' :: 'o' :: _ => true
  | _ => false

/-- Python `s[:n]`. -/
def pyTake (s : String) (n : Nat) : String := String.mk (s.toList.take n)

/-- Python `s[-n:]` for n ≥ 1 (on a string shorter than n it returns the
whole string, which `List.drop` with truncated subtraction also does). -/
def pyTakeLast (s : String) (n : Nat) : String :=
  String.mk (s.toList.drop (s.toList.length - n))

/-- Python `int(x)` on an exact numeric value: truncation toward zero. -/
def pyTrunc (q : ℚ) : ℤ := if 0 ≤ q then ⌊q⌋ else ⌈q⌉

/-- Decimal digits of `n`, least significant first (enough fuel for any
amount arising here). -/
def natDigitsRevAux : Nat → Nat → List Nat
  | 0, _ => []
  | fuel+1, n => if n < 10 then [n] else (n % 10) :: natDigitsRevAux fuel (n / 10)

/-- Group a (reversed) digit list in threes, as Python `f"{n:,}"` groups
from the least significant digit. -/
def chunk3 : List Char → List (List Char)
  | [] => []
  | [a] => [[a]]
  | [a, b] => [[a, b]]
  | a :: b :: c :: rest => [a, b, c] :: chunk3 rest

/-- Join digit groups with comma separators. -/
def joinComma : List (List Char) → List Char
  | [] => []
  | [g] => g
  | g :: rest => g ++ ',' :: joinComma rest

/-- Python `f"{n:,}"` for a natural number. -/
def commaFormatNat (n : Nat) : String :=
  let revDigits := (natDigitsRevAux 64 n).map fun d => Char.ofNat (48 + d)
  String.mk (joinComma (((chunk3 revDigits).map List.reverse).reverse))

/-- Python `f"{n:,}"` for an integer (src/main.py line 164). -/
def commaFormatInt (n : ℤ) : String :=
  if n < 0 then "-" ++ commaFormatNat n.natAbs else commaFormatNat n.natAbs

/-- Python `sep.join(parts)`. -/
def joinStrs (sep : String) : List String → String
  | [] => ""
  | [x] => x
  | x :: rest => x ++ sep ++ joinStrs sep rest

/-- The wrapped-SOL mint literal used in src/main.py (lines 133, 174, 264). -/
def wsolMint : String := "So11111111111111111111111111111111111111112"

/-- The USDC mint literal used in src/main.py (line 175). -/
def usdcMint : String := "EPjFWdd5AufqSSqeM2qN1xzybapC8G4wEGGkZwyTDt1v"

/-- The USDT mint literal used in src/main.py (line 176). -/
def usdtMint : String := "Es9vMFrzaCjLwSX5ae4Ew9WVeEKXZotPwX3hPJJrEvDw"

/-- The registry index type: a Python dict from lower-cased symbol to mint
address, modelled as an ordered association list with unique keys. -/
abbrev TokenMap := List (String × String)

/-- Python dict insertion: overwrite the value of an existing key in place,
otherwise append (so a later duplicate key wins, as in a dict
comprehension). -/
def dictInsert (m : TokenMap) (k v : String) : TokenMap :=
  if (m.lookup k).isSome then m.map (fun p => if p.1 = k then (k, v) else p)
  else m ++ [(k, v)]

/-- The dict comprehension of src/main.py line 75:
`{t['symbol'].lower(): t['address'] for t in tokens if 'symbol' in t and 'address' in t}`. -/
def buildTokenMap (tokens : List RawToken) : TokenMap :=
  tokens.foldl
    (fun m t =>
      match t.symbol, t.address with
      | some s, some a => dictInsert m (pyLower s) a
      | _, _ => m)
    []

/-- `get_jupiter_token_map` (src/main.py lines 70-77), with the outcome of
the `requests.get` + `resp.json()` try-block passed explicitly: `none`
models any exception during fetch or parse, in which case the function
returns the empty dict instead of raising.  (The `@lru_cache(maxsize=1)`
decorator is modelled separately by `tokenMapCall` below.) -/
def get_jupiter_token_map (fetched : Option (List RawToken)) : TokenMap :=
  match fetched with
  | none => []
  | some tokens => buildTokenMap tokens

/-- `get_token_mint_from_symbol` (src/main.py lines 79-84).  Python
`if not mint` treats both a missing key and an empty-string value as
failure. -/
def get_token_mint_from_symbol (token_map : TokenMap) (symbol : String) :
    Except HTTPError String :=
  match token_map.lookup (pyLower symbol) with
  | some mint =>
      if mint = "" then
        Except.error ⟨404, "Mint not found for symbol \x27" ++ symbol ++ "\x27"⟩
      else Except.ok mint
  | none => Except.error ⟨404, "Mint not found for symbol \x27" ++ symbol ++ "\x27"⟩

/-- `resolve_to_mint` (src/main.py lines 86-89): an input longer than 30
characters that starts with "So" is returned as the mint itself; everything
else is looked up as a symbol.  The function consults no on-chain
collaborator and carries no decimals. -/
def resolve_to_mint (token_map : TokenMap) (token_input : String) :
    Except HTTPError String :=
  if 30 < token_input.length ∧ pyStartsWithSo token_input = true then
    Except.ok token_input
  else get_token_mint_from_symbol token_map token_input

/-- One step of the Jupiter `routePlan`, restricted to the `swapInfo`
fields read by src/main.py lines 167-170 (`none` models a missing key;
`step.get("swapInfo", {})` collapses into the two optional fields). -/
structure RouteStep where
  inputMint : Option String
  outputMint : Option String
  deriving DecidableEq, Repr

/-- The parsed Jupiter quote body.  `outAmount = none` models both a falsy
(empty) response and a response without the "outAmount" key, which
src/main.py line 159 treats identically; when present, the decimal string
is modelled by its integer value (line 163, `int(quote["outAmount"])`). -/
structure JupQuote where
  outAmount : Option Int
  routePlan : List RouteStep
  deriving DecidableEq, Repr

/-- Outcome of the `requests.get(jup_url, timeout=5)` call of src/main.py
line 153: a raised `requests.RequestException`, or a response with a
status code and parsed body. -/
inductive ProviderResponse where
  | transportError
  | response (statusCode : Nat) (body : JupQuote)
  deriving DecidableEq, Repr

/-- `mint_to_symbol` (src/main.py lines 172-180): the three known mints map
to fixed tickers; a falsy argument (None or empty) maps to "UNK"; anything
else is abbreviated to its first four and last three characters. -/
def mint_to_symbol (mint_addr : Option String) : String :=
  match mint_addr with
  | none => "UNK"
  | some m =>
      if m = wsolMint then "SOL"
      else if m = usdcMint then "USDC"
      else if m = usdtMint then "USDT"
      else if m = "" then "UNK"
      else pyTake m 4 ++ "…" ++ pyTakeLast m 3

/-- The raw-amount preparation of src/main.py lines 130-142: the hardcoded
wrapped-SOL mint gets `int(amount * 1e9)`, every other input mint gets
`int(amount)` (the amount is assumed to already be in atomic units; no
decimals are fetched).  On exact rationals `int(...)` always succeeds, so
the `raw_amount = None` / 422 path (reachable in Python only for NaN or
infinite floats) is never taken here. -/
def rawAmountOf (input_mint_addr : String) (amount : ℚ) : Option ℤ :=
  if input_mint_addr = wsolMint then some (pyTrunc (amount * 10 ^ 9))
  else some (pyTrunc amount)

/-- The fields of the dict returned by `simulate_swap` (src/main.py lines
188-194).  The two f-strings `input_amount` and `output_estimate` are kept
as their components: numeric part and token label; `out_amount` is the raw
integer that `output_estimate_str` renders with comma grouping. -/
structure SwapResult where
  input_amount_value : ℚ
  input_amount_label : String
  out_amount : ℤ
  output_estimate_str : String
  output_estimate_label : String
  slippage : String
  route : String
  platform : String
  deriving DecidableEq, Repr

/-- `simulate_swap` (src/main.py lines 127-194).  The Jupiter quote GET
(whose URL hardcodes `slippageBps=50` and `restrictIntermediateTokens=true`)
is the `jupiterQuote` collaborator, called with the input mint, output mint
and raw amount.  An empty `route_steps` list makes the Python
`route_steps[0]` raise an uncaught IndexError, which FastAPI surfaces as a
500 response; that is the final `.error ⟨500, ...⟩` branch. -/
def simulate_swap (jupiterQuote : String → String → ℤ → ProviderResponse)
    (input_mint output_mint : String) (amount : ℚ) :
    Except HTTPError SwapResult :=
  let input_mint_addr := input_mint
  let output_mint_addr := output_mint
  match rawAmountOf input_mint_addr amount with
  | none => Except.error ⟨422, "Invalid amount"⟩
  | some raw_amount =>
    match jupiterQuote input_mint_addr output_mint_addr raw_amount with
    | ProviderResponse.transportError =>
        Except.error ⟨502, "Jupiter quote request failed"⟩
    | ProviderResponse.response statusCode quote =>
      if statusCode ≠ 200 then Except.error ⟨502, "Jupiter API returned error"⟩
      else
        match quote.outAmount with
        | none => Except.error ⟨502, "Invalid quote response"⟩
        | some out_amount =>
          let route_steps := quote.routePlan.map fun step => mint_to_symbol step.inputMint
          let route_steps :=
            match route_steps with
            | [] => []
            | _ :: _ => route_steps ++ [mint_to_symbol (some output_mint_addr)]
          match route_steps with
          | [] => Except.error ⟨500, "Internal Server Error"⟩
          | first :: rest =>
            Except.ok
              { input_amount_value := amount
                input_amount_label := first
                out_amount := out_amount
                output_estimate_str := commaFormatInt out_amount
                output_estimate_label := rest.getLastD first
                slippage := "0.5%"
                route := joinStrs (" -> ") (first :: rest)
                platform := "Jupiter Aggregator" }

/-- One call through the `@lru_cache(maxsize=1)` decorator on
`get_jupiter_token_map`: if a cached value exists it is returned and the
body does not run (no fetch, flag `false`); otherwise the body runs on the
current fetch outcome and its result, whatever it is, is stored.  Returns
(result, new cache, whether a fetch was attempted). -/
def tokenMapCall (cache : Option TokenMap) (fetched : Option (List RawToken)) :
    TokenMap × Option TokenMap × Bool :=
  match cache with
  | some m => (m, some m, false)
  | none => (get_jupiter_token_map fetched, some (get_jupiter_token_map fetched), true)

/-- A sequence of calls to the cached `get_jupiter_token_map`, each with
the fetch outcome that call would have seen; yields every call's
(result, fetch-attempted) pair. -/
def tokenMapRun (cache : Option TokenMap) :
    List (Option (List RawToken)) → List (TokenMap × Bool)
  | [] => []
  | f :: fs =>
      let r := tokenMapCall cache f
      (r.1, r.2.2) :: tokenMapRun r.2.1 fs

/-- Modelled from the spec (section 4.3), for comparison with the source:
`to_atomic(human_amount, decimals)` is `round(human_amount × 10^decimals)`
in exact decimal arithmetic. -/
def spec_toAtomic (a : ℚ) (d : Nat) : ℤ := round (a * 10 ^ d)

/-- Modelled from the spec (section 4.3), for comparison with the source:
`to_human(atomic_amount, decimals)` is `atomic_amount / 10^decimals` in
exact arithmetic. -/
def spec_toHuman (n : ℤ) (d : Nat) : ℚ := (n : ℚ) / 10 ^ d

/-- Index of a character in the Bitcoin base58 alphabet, per the spec's
"base58 text decoding to 32 bytes" (glossary). -/
def base58Val (c : Char) : Option Nat :=
  "123456789ABCDEFGHJKLMNPQRSTUVWXYZabcdefghijkmnopqrstuvwxyz".toList.findIdx? (· = c)

/-- Base58 decode a string to its big-endian numeric value; `none` if any
character is outside the alphabet. -/
def base58Num (s : String) : Option Nat :=
  s.toList.foldl (fun acc c => acc.bind fun n => (base58Val c).map fun d => n * 58 + d)
    (some 0)

/-- Leading '1' characters of a base58 string, each standing for one zero
byte of the decoding. -/
def countLeadingOnes : List Char → Nat
  | '1' :: rest => countLeadingOnes rest + 1
  | _ => 0

/-- Byte length of the minimal big-endian representation of `n` (fuel-based
recursion; 64 bytes of fuel covers every value arising here). -/
def natByteLenAux : Nat → Nat → Nat
  | 0, _ => 0
  | fuel+1, n => if n = 0 then 0 else natByteLenAux fuel (n / 256) + 1

/-- Byte length of the minimal big-endian representation of `n`. -/
def natByteLen (n : Nat) : Nat := natByteLenAux 64 n

/-- Modelled from the spec (glossary and section 4.2 step 2), for
comparison with the source: a string is a valid mint address exactly when
it base58-decodes to exactly 32 bytes. -/
def spec_isValidBase58Mint (s : String) : Bool :=
  match base58Num s with
  | none => false
  | some n => countLeadingOnes s.toList + natByteLen n == 32

/-- A Jupiter-quote collaborator that always returns the same response,
regardless of mints and amount. -/
def constJupiter (statusCode : Nat) (body : JupQuote) :
    String → String → ℤ → ProviderResponse :=
  fun _ _ _ => ProviderResponse.response statusCode body

/-- A Jupiter-quote collaborator whose request always raises a transport
exception. -/
def transportFailJupiter : String → String → ℤ → ProviderResponse :=
  fun _ _ _ => ProviderResponse.transportError

/-- A route-plan step from wrapped SOL to USDC. -/
def stepSolToUsdc : RouteStep := ⟨some wsolMint, some usdcMint⟩

/-- A degenerate route-plan step from wrapped SOL to itself. -/
def stepSolToSol : RouteStep := ⟨some wsolMint, some wsolMint⟩

/-- A token list carrying two records that share the symbol "BONK" at two
different mint addresses. -/
def bonkTokens : List RawToken :=
  [⟨some ("BONK"), some ("BonkMintAddressAAAAAAAAAAAAAAAAAAAAAAAAAAAA")⟩,
   ⟨some ("BONK"), some ("BonkMintAddressBBBBBBBBBBBBBBBBBBBBBBBBBBBB")⟩]

theorem pyTrunc_intCast (n : ℤ) : pyTrunc (n : ℚ) = n := by
  unfold pyTrunc
  split
  · exact Int.floor_intCast n
  · exact Int.ceil_intCast n

/-- C1: the claim says a symbol matching two or more records must fail with
AmbiguousSymbol and never silently return a candidate.  The code instead
builds the symbol index as a dict comprehension in which a later duplicate
symbol overwrites an earlier one, and resolution silently returns that last
record's address: with two "BONK" records, resolving "bonk" returns the
second address.  The unique-symbol half of the claim does hold: a symbol
present exactly once resolves to that record's address. -/
theorem claim1_ambiguous_symbol_silently_picks_last :
    resolve_to_mint (get_jupiter_token_map (some bonkTokens)) ("bonk") =
      Except.ok ("BonkMintAddressBBBBBBBBBBBBBBBBBBBBBBBBBBBB") ∧
    resolve_to_mint (get_jupiter_token_map (some [⟨some ("USDC"), some usdcMint⟩]))
        ("usdc") =
      Except.ok usdcMint :=
  ⟨rfl, rfl⟩

/-- C9: if the bulk token-list fetch or parse fails, `get_jupiter_token_map`
returns the empty index instead of raising (the embedding is a total
function, mirroring the catch-all `except Exception: return {}`), and every
subsequent symbol lookup operates on that empty index, failing with the
symbol-specific 404 rather than failing at load time. -/
theorem claim9_failed_load_yields_empty_registry :
    get_jupiter_token_map none = [] ∧
    (∀ sym : String,
      get_token_mint_from_symbol (get_jupiter_token_map none) sym =
        Except.error ⟨404, "Mint not found for symbol \x27" ++ sym ++ "\x27"⟩) :=
  ⟨rfl, fun _ => rfl⟩

theorem tokenMapRun_cached (m : TokenMap) (fs : List (Option (List RawToken))) :
    tokenMapRun (some m) fs = fs.map fun _ => (m, false) := by
  induction fs with
  | nil => rfl
  | cons f fs ih => simp [tokenMapRun, tokenMapCall, ih]

/-- C10: under `@lru_cache(maxsize=1)` the token map is built at most once
per process: the first call fetches and caches its result, and every
subsequent call returns that same map with no new fetch, whatever the later
fetch outcomes would have been — in particular a failed first fetch caches
the empty map for the rest of the process lifetime. -/
theorem claim10_token_map_fetched_at_most_once (f : Option (List RawToken))
    (fs : List (Option (List RawToken))) :
    tokenMapRun none (f :: fs) =
      (get_jupiter_token_map f, true) ::
        fs.map (fun _ => (get_jupiter_token_map f, false)) ∧
    tokenMapRun none (none :: fs) =
      ([], true) :: fs.map fun _ => ([], false) := by
  constructor
  · simp [tokenMapRun, tokenMapCall, tokenMapRun_cached]
  · simp [tokenMapRun, tokenMapCall, tokenMapRun_cached, get_jupiter_token_map]

/-- C3 counterexample: the wrapped-SOL mint is a valid base58 32-byte
address absent from the (empty) registry, yet `resolve_to_mint` succeeds
immediately by returning the input — it performs no live decimals lookup
(its definition consults no on-chain collaborator at all), so the claimed
"exactly one live lookup, and TokenNotFound when it fails" is false: the
result is a success whether or not any live lookup could succeed. -/
theorem claim3_counterexample :
    spec_isValidBase58Mint wsolMint = true ∧
    resolve_to_mint [] wsolMint = Except.ok wsolMint :=
  ⟨by decide, rfl⟩

/-- C3 (amended): resolution performs no live on-chain decimals lookup and
tracks no decimals; any identifier longer than 30 characters that starts
with "So" is returned as the mint itself, regardless of the registry
contents. -/
theorem claim3_address_like_inputs_bypass_all_lookups (token_map : TokenMap)
    (s : String) (h1 : 30 < s.length) (h2 : pyStartsWithSo s = true) :
    resolve_to_mint token_map s = Except.ok s := by
  unfold resolve_to_mint
  rw [if_pos ⟨h1, h2⟩]

theorem claim3_witness : resolve_to_mint [] wsolMint = Except.ok wsolMint :=
  claim3_address_like_inputs_bypass_all_lookups [] wsolMint (by decide) (by decide)

/-- C8 counterexample: the USDC mint base58-decodes to exactly 32 bytes yet
is not treated as an address (it falls through to symbol lookup and fails
404 on an empty registry), while a 31-character "So"-prefixed string full
of invalid base58 characters is treated as an address and returned as a
mint.  So the code's classification is not "base58-decodes to 32 bytes". -/
theorem claim8_counterexample :
    spec_isValidBase58Mint usdcMint = true ∧
    resolve_to_mint [] usdcMint =
      Except.error ⟨404, "Mint not found for symbol \x27" ++ usdcMint ++ "\x27"⟩ ∧
    spec_isValidBase58Mint ("So00000000000000000000000000000") = false ∧
    resolve_to_mint [] ("So00000000000000000000000000000") =
      Except.ok ("So00000000000000000000000000000") :=
  ⟨by decide, rfl, by decide, rfl⟩

/-- C8 (amended): the resolver classifies an identifier as a candidate mint
address exactly when its length exceeds 30 characters and it starts with
"So"; no base58 decoding is performed.  Identifiers meeting the condition
are returned as the mint; all others take the symbol-lookup path. -/
theorem claim8_classification_by_length_and_leading_so (token_map : TokenMap)
    (s : String) :
    (30 < s.length ∧ pyStartsWithSo s = true →
      resolve_to_mint token_map s = Except.ok s) ∧
    (¬(30 < s.length ∧ pyStartsWithSo s = true) →
      resolve_to_mint token_map s = get_token_mint_from_symbol token_map s) := by
  constructor
  · intro h
    unfold resolve_to_mint
    rw [if_pos h]
  · intro h
    unfold resolve_to_mint
    rw [if_neg h]

theorem claim8_witness :
    resolve_to_mint [] ("So00000000000000000000000000000") =
      Except.ok ("So00000000000000000000000000000") ∧
    resolve_to_mint [] ("usdc") = get_token_mint_from_symbol [] ("usdc") :=
  ⟨(claim8_classification_by_length_and_leading_so [] ("So00000000000000000000000000000")).1
      ⟨by decide, by decide⟩,
   (claim8_classification_by_length_and_leading_so [] ("usdc")).2 (by decide)⟩

/-- C2: the claim requires exact-decimal `to_atomic`/`to_human` with the
round-trip identity for every decimals value in [0,18].  The spec-modelled
functions do satisfy it at the failing input (1.5 with 6 decimals round
trips through 1500000), but the code has no such converters: for a
non-wrapped-SOL input mint it computes `int(amount)`, ignoring decimals
entirely, sending 1 atomic unit where exact conversion yields 1500000. -/
theorem claim2_code_has_no_exact_decimal_conversion :
    spec_toAtomic (3/2) 6 = 1500000 ∧
    spec_toHuman (spec_toAtomic (3/2) 6) 6 = 3/2 ∧
    rawAmountOf usdcMint (3/2) = some 1 := by
  have h1 : spec_toAtomic (3/2) 6 = 1500000 := by
    unfold spec_toAtomic
    have hcast : ((3:ℚ)/2 * 10 ^ (6:Nat)) = ((1500000 : ℤ) : ℚ) := by norm_num
    rw [hcast, round_intCast]
  refine ⟨h1, ?_, ?_⟩
  · rw [h1]
    unfold spec_toHuman
    norm_num
  · unfold rawAmountOf
    rw [if_neg (by decide)]
    have hfloor : pyTrunc ((3:ℚ)/2) = 1 := by
      have h0 : (0:ℚ) ≤ 3/2 := by norm_num
      rw [pyTrunc, if_pos h0, Int.floor_eq_iff]
      constructor
      · norm_num
      · norm_num
    rw [hfloor]

/-- C4: the claim says input amounts are converted with the input token's
decimals and the provider's atomic output is converted back with the output
token's decimals.  The code converts the input only for the hardcoded
wrapped-SOL mint (a USDC-input human amount of 2 is sent as raw 2, not
2000000), and it never converts the output: a provider output of 150000000
atomic USDC units is reported as the comma-formatted atomic string
"150,000,000" instead of the human value 150. -/
theorem claim4_amounts_not_converted_by_decimals :
    rawAmountOf usdcMint 2 = some 2 ∧
    spec_toAtomic 2 6 = 2000000 ∧
    simulate_swap (constJupiter 200 ⟨some 150000000, [stepSolToUsdc]⟩)
        wsolMint usdcMint (3/2) =
      Except.ok
        { input_amount_value := 3/2
          input_amount_label := "SOL"
          out_amount := 150000000
          output_estimate_str := "150,000,000"
          output_estimate_label := "USDC"
          slippage := "0.5%"
          route := "SOL -> USDC"
          platform := "Jupiter Aggregator" } ∧
    spec_toHuman 150000000 6 = 150 := by
  refine ⟨?_, ?_, rfl, ?_⟩
  · unfold rawAmountOf
    rw [if_neg (by decide)]
    have h : ((2:ℚ)) = ((2:ℤ) : ℚ) := by norm_num
    rw [h, pyTrunc_intCast]
  · unfold spec_toAtomic
    have hcast : ((2:ℚ) * 10 ^ (6:Nat)) = ((2000000 : ℤ) : ℚ) := by norm_num
    rw [hcast, round_intCast]
  · unfold spec_toHuman
    norm_num

/-- C5 counterexample: a quote request whose input and output mints are both
wrapped SOL does not fail with SameToken — with a provider that returns a
quote, it succeeds like any other request. -/
theorem claim5_counterexample :
    simulate_swap (constJupiter 200 ⟨some 5, [stepSolToSol]⟩)
        wsolMint wsolMint 1 =
      Except.ok
        { input_amount_value := 1
          input_amount_label := "SOL"
          out_amount := 5
          output_estimate_str := "5"
          output_estimate_label := "SOL"
          slippage := "0.5%"
          route := "SOL -> SOL"
          platform := "Jupiter Aggregator" } :=
  rfl

/-- C5 (amended): `simulate_swap` never compares the two mints; a request
with identical input and output mints is forwarded to the provider for any
amount, and a provider success is returned as a normal quote. -/
theorem claim5_no_same_token_rejection (a : ℚ) (n : ℤ) :
    simulate_swap (constJupiter 200 ⟨some n, [stepSolToSol]⟩)
        wsolMint wsolMint a =
      Except.ok
        { input_amount_value := a
          input_amount_label := "SOL"
          out_amount := n
          output_estimate_str := commaFormatInt n
          output_estimate_label := "SOL"
          slippage := "0.5%"
          route := "SOL -> SOL"
          platform := "Jupiter Aggregator" } :=
  rfl

/-- C6 counterexample: when the provider responds 200 with an explicit
output amount of 0, the code does not fail with NoRouteFound — it returns a
successful quote with zero output. -/
theorem claim6_counterexample :
    simulate_swap (constJupiter 200 ⟨some 0, [stepSolToUsdc]⟩)
        wsolMint usdcMint 1 =
      Except.ok
        { input_amount_value := 1
          input_amount_label := "SOL"
          out_amount := 0
          output_estimate_str := "0"
          output_estimate_label := "USDC"
          slippage := "0.5%"
          route := "SOL -> USDC"
          platform := "Jupiter Aggregator" } :=
  rfl

/-- C6 (amended): a transport exception fails with 502 "Jupiter quote
request failed"; a non-200 status fails with 502 "Jupiter API returned
error"; a 200 response that omits the output amount fails with 502 "Invalid
quote response" (the three are distinguished only by detail string, all
sharing status 502); and a present output amount of 0 is not an error at
all — it yields a successful zero-output quote. -/
theorem claim6_provider_failure_mapping (a : ℚ) :
    simulate_swap transportFailJupiter wsolMint usdcMint a =
      Except.error ⟨502, "Jupiter quote request failed"⟩ ∧
    simulate_swap (constJupiter 429 ⟨none, []⟩) wsolMint usdcMint a =
      Except.error ⟨502, "Jupiter API returned error"⟩ ∧
    simulate_swap (constJupiter 200 ⟨none, []⟩) wsolMint usdcMint a =
      Except.error ⟨502, "Invalid quote response"⟩ ∧
    simulate_swap (constJupiter 200 ⟨some 0, [stepSolToUsdc]⟩)
        wsolMint usdcMint a =
      Except.ok
        { input_amount_value := a
          input_amount_label := "SOL"
          out_amount := 0
          output_estimate_str := "0"
          output_estimate_label := "USDC"
          slippage := "0.5%"
          route := "SOL -> USDC"
          platform := "Jupiter Aggregator" } :=
  ⟨rfl, rfl, rfl, rfl⟩

/-- C7 counterexample: with a negative amount the code neither fails with
InvalidArgument nor skips the provider call — the amount is converted to
raw units (here -1000000000 lamports) and the provider's answer is returned
as a successful quote.  (There is also no slippage parameter to validate:
slippageBps is hardcoded to 50.) -/
theorem claim7_counterexample :
    simulate_swap (constJupiter 200 ⟨some 7, [stepSolToUsdc]⟩)
        wsolMint usdcMint (-1) =
      Except.ok
        { input_amount_value := -1
          input_amount_label := "SOL"
          out_amount := 7
          output_estimate_str := "7"
          output_estimate_label := "USDC"
          slippage := "0.5%"
          route := "SOL -> USDC"
          platform := "Jupiter Aggregator" } ∧
    rawAmountOf wsolMint (-1) = some (-1000000000) := by
  refine ⟨rfl, ?_⟩
  unfold rawAmountOf
  rw [if_pos rfl]
  have h : ((-1 : ℚ) * 10 ^ 9) = ((-1000000000 : ℤ) : ℚ) := by norm_num
  rw [h, pyTrunc_intCast]

/-- C7 (amended): `simulate_swap` performs no range validation on the
amount: every exact amount — positive, zero, or negative — is converted and
forwarded to the provider, whose successful answer is returned.  (The 422
"Invalid amount" branch is reachable in Python only when `int()` itself
fails, i.e. for NaN or infinite floats, and slippage is not a request
parameter at all.) -/
theorem claim7_no_amount_validation (a : ℚ) :
    simulate_swap (constJupiter 200 ⟨some 7, [stepSolToUsdc]⟩)
        wsolMint usdcMint a =
      Except.ok
        { input_amount_value := a
          input_amount_label := "SOL"
          out_amount := 7
          output_estimate_str := "7"
          output_estimate_label := "USDC"
          slippage := "0.5%"
          route := "SOL -> USDC"
          platform := "Jupiter Aggregator" } :=
  rfl
